import Mathlib

/-!
# PostMatchReport — verification of the match-event aggregation engine

Shallow embedding of the event transformation and aggregation pipeline of the
PostMatchReport repository (`src/ETL/transformers/*.py`,
`src/ETL/transformers/match_processor.py`, `src/match_visualizations.py`,
`src/Reporting/report_generator.py`).

Conventions of the embedding:
* JSON-like raw values are the inductive `JVal`; Python `dict`s appearing as
  JSON objects are association lists with unique keys, and the decoded
  qualifier mapping is an association list with Python-dict overwrite
  semantics (`dictInsert`).
* pandas `NaN` cells are `Option.none`; arithmetic on `none` yields `none`
  and comparisons against `none` yield `false`, matching pandas filtering.
* Machine floats are modelled by `ℚ`.  The irrational derived columns are
  represented by their rational arguments: the source's
  `distance = sqrt((endX-x)^2+(endY-y)^2)` is carried as the radicand
  `distanceSq` (for `d ≥ 0`, `sqrt d > 0 ↔ d > 0` and `sqrt d < c ↔ d < c²`,
  so every comparison the source performs is expressible), and
  `angle = arctan2(dy, dx)` as its argument pair `angleArgs`; definedness
  (`NaN`-ness) is preserved exactly.
* Fallible code (`KeyError`, `AttributeError`) returns `Except String`.
-/

namespace PostMatch

/-- JSON-like values as delivered by the raw event feed.  Objects are
association lists with string keys (Python dicts decoded from JSON). -/
inductive JVal where
  | null : JVal
  | bool : Bool → JVal
  | num : ℚ → JVal
  | str : String → JVal
  | arr : List JVal → JVal
  | obj : List (String × JVal) → JVal

/-- Whether a value is a Python `list` (`isinstance(x, list)`). -/
def JVal.isArr : JVal → Bool
  | .arr _ => true
  | _ => false

/-- Lookup in a JSON object's key/value list (`d.get(k)` on a decoded JSON
dict; keys are unique, the first binding is the binding). -/
def objLookup (kvs : List (String × JVal)) (k : String) : Option JVal :=
  (kvs.find? (fun p => p.1 = k)).map (fun p => p.2)

/-- Python `d.get(k, default)`. -/
def objGetD (kvs : List (String × JVal)) (k : String) (dflt : JVal) : JVal :=
  (objLookup kvs k).getD dflt

/-- Python dict membership `k in d`. -/
def dictContains (m : List (String × JVal)) (k : String) : Bool :=
  m.any (fun p => p.1 = k)

/-- Python dict lookup `d[k]` / `d.get(k)` on the decoded qualifier map. -/
def dictLookup (m : List (String × JVal)) (k : String) : Option JVal :=
  (m.find? (fun p => p.1 = k)).map (fun p => p.2)

/-- Python dict assignment `d[k] = v`: overwrite the existing binding in
place, else append a new binding (insertion order preserved). -/
def dictInsert (m : List (String × JVal)) (k : String) (v : JVal) :
    List (String × JVal) :=
  if m.any (fun p => p.1 = k) then
    m.map (fun p => if p.1 = k then (k, v) else p)
  else
    m ++ [(k, v)]

/-- One iteration of `EventProcessor._process_qualifiers`: from a raw
qualifier produce the `(q_type, q_value)` binding it stores, if any.
Mirrors: `isinstance(q, dict) and 'type' in q`, then
`q_type = q['type'].get('displayName', '') if isinstance(q['type'], dict)
else ''`, `q_value = q.get('value', True)`, `if q_type: ...`.
Schema note: `displayName` values in the feed are strings; a non-string
`displayName` is treated like a missing one. -/
def qualifierEntry : JVal → Option (String × JVal)
  | .obj kvs =>
    if dictContains kvs "type" then
      let qtype : String :=
        match objLookup kvs "type" with
        | some (.obj tkvs) =>
          match objLookup tkvs "displayName" with
          | some (.str s) => s
          | _ => ""
        | _ => ""
      let qvalue : JVal := objGetD kvs "value" (.bool true)
      if qtype ≠ "" then some (qtype, qvalue) else none
    else none
  | _ => none

/-- Source `EventProcessor._process_qualifiers`: decode a raw qualifier list into a
flat mapping.  Non-list input yields the empty mapping; each qualifier with a
truthy `type.displayName` stores `result[q_type] = q_value` (overwriting any
earlier binding). -/
def processQualifiers : JVal → List (String × JVal)
  | .arr l =>
    l.foldl
      (fun acc q =>
        match qualifierEntry q with
        | some kv => dictInsert acc kv.1 kv.2
        | none => acc)
      []
  | _ => []

/-- A raw event record as consumed by
`EventProcessor._create_events_dataframe`.  `Option` fields model keys that
may be absent from the record (pandas then holds `NaN` in that cell, and a
key absent from *every* record yields no column at all).  Schema notes:
`minute`/`second` and the nested `qualifiers` field are present on every
record of the feeds this pipeline ingests, so they are plain fields here. -/
structure RawEvent where
  eventId : ℤ := 0
  teamId : ℤ := 0
  playerId : ℤ := 0
  x : Option ℚ := none
  y : Option ℚ := none
  endX : Option ℚ := none
  endY : Option ℚ := none
  type : Option JVal := none
  outcomeType : Option JVal := none
  period : Option JVal := none
  minute : ℚ := 0
  second : ℚ := 0
  qualifiers : JVal := .null

/-- Python `x.get('displayName', '') if isinstance(x, dict) else ''` applied to a
nested field (`type`, `outcomeType`, `period`). -/
def displayNameOf : Option JVal → String
  | some (.obj kvs) =>
    match objLookup kvs "displayName" with
    | some (.str s) => s
    | _ => ""
  | _ => ""

/-- Python `x.get('value', dflt) if isinstance(x, dict) else dflt` for the numeric
`value` of a nested field. -/
def numValueOf (v : Option JVal) (dflt : ℚ) : ℚ :=
  match v with
  | some (.obj kvs) =>
    match objLookup kvs "value" with
    | some (.num q) => q
    | _ => dflt
  | _ => dflt

/-- Python `float(v)` on a qualifier value, for the numeric values the `xG`
qualifier carries. -/
def jToNum : JVal → ℚ
  | .num q => q
  | .bool b => if b then 1 else 0
  | _ => 0

/-- The `period_base` map of `_calculate_cumulative_minutes`:
`{1: 0, 2: 45, 3: 90, 4: 105, 5: 120}` with `.get(period_value, 0)`. -/
def periodBase (p : ℚ) : ℚ :=
  if p = 1 then 0 else if p = 2 then 45 else if p = 3 then 90
  else if p = 4 then 105 else if p = 5 then 120 else 0

/-- One normalized row of the events table produced by
`EventProcessor._create_events_dataframe`.  `distanceSq` is the radicand of
the source's `distance` column and `angleArgs` the `(dy, dx)` argument pair
of its `angle = arctan2(dy, dx)` column; both are `none` exactly when the
source column holds `NaN`. -/
structure Event where
  eventId : ℤ := 0
  teamId : ℤ := 0
  playerId : ℤ := 0
  x : Option ℚ := none
  y : Option ℚ := none
  endX : Option ℚ := none
  endY : Option ℚ := none
  typeDisplay : String := ""
  isSuccessful : Bool := false
  periodValue : ℚ := 1
  cumulativeMins : ℚ := 0
  qualifiersDict : List (String × JVal) := []
  isKeyPass : Bool := false
  isAssist : Bool := false
  isGoal : Bool := false
  isOwnGoal : Bool := false
  xg : ℚ := 0
  distanceSq : Option ℚ := none
  angleArgs : Option (ℚ × ℚ) := none
  isProgressive : Bool := false

/-- Normalization of a single record: coordinate scaling (`x*1.05`,
`y*0.68`, same for `endX`/`endY`), nested-field extraction, qualifier
decoding, derived flags, cumulative match clock, and the spatial metrics of
`_add_spatial_metrics`.  `NaN` cells propagate: a missing operand makes
`distance`/`angle` undefined and makes the `(endX - x) > 10` progressiveness
comparison `false`. -/
def mkRow (e : RawEvent) : Event :=
  let xs := e.x.map (fun q => q * (105 / 100))
  let ys := e.y.map (fun q => q * (68 / 100))
  let exs := e.endX.map (fun q => q * (105 / 100))
  let eys := e.endY.map (fun q => q * (68 / 100))
  let qd := processQualifiers e.qualifiers
  let pv := numValueOf e.period 1
  { eventId := e.eventId
    teamId := e.teamId
    playerId := e.playerId
    x := xs, y := ys, endX := exs, endY := eys
    typeDisplay := displayNameOf e.type
    isSuccessful := displayNameOf e.outcomeType = "Successful"
    periodValue := pv
    cumulativeMins := periodBase pv + e.minute + e.second / 60
    qualifiersDict := qd
    isKeyPass := dictContains qd "KeyPass"
    isAssist := dictContains qd "Assist"
    isGoal := dictContains qd "Goal"
    isOwnGoal := dictContains qd "OwnGoal"
    xg := if dictContains qd "xG" then jToNum (objGetD qd "xG" (.num 0)) else 0
    distanceSq :=
      match exs, xs, eys, ys with
      | some a, some b, some c, some d => some ((a - b) ^ 2 + (c - d) ^ 2)
      | _, _, _, _ => none
    angleArgs :=
      match eys, ys, exs, xs with
      | some c, some d, some a, some b => some (c - d, a - b)
      | _, _, _, _ => none
    isProgressive :=
      match exs, xs with
      | some a, some b => decide (a - b > 10)
      | _, _ => false }

/-- Whether the batch gives rise to the given column: pandas creates a
column iff at least one record carries the key. -/
def hasCol (events : List RawEvent) (f : RawEvent → Option ℚ) : Bool :=
  events.any (fun e => (f e).isSome)

/-- Source `EventProcessor._create_events_dataframe`.  An empty batch yields the
empty frame.  Otherwise coordinate scaling is per-column guarded, but
`_add_spatial_metrics` dereferences all four coordinate columns unguarded
(`df['endX'] - df['x']`, ...), so a batch in which one of `x`/`y`/`endX`/
`endY` occurs on no record raises `KeyError`. -/
def createEventsDataframe (events : List RawEvent) :
    Except String (List Event) :=
  if events.isEmpty then .ok []
  else if hasCol events (fun e => e.x) && hasCol events (fun e => e.y) &&
      hasCol events (fun e => e.endX) && hasCol events (fun e => e.endY) then
    .ok (events.map mkRow)
  else
    .error "KeyError: missing coordinate column in _add_spatial_metrics"

/-! ## Statistics aggregator (`src/ETL/transformers/stats_aggregator.py`) -/

/-- Python 3 `round` to an integer: round half to even (banker's rounding).
Representation error of binary floats at exact decimal ties is not
modelled. -/
def roundHalfEven (q : ℚ) : ℤ :=
  let f := ⌊q⌋
  let r := q - f
  if r < 1 / 2 then f
  else if r > 1 / 2 then f + 1
  else if f % 2 = 0 then f else f + 1

/-- Python `round(q, n)`. -/
def pyRound (n : ℕ) (q : ℚ) : ℚ :=
  (roundHalfEven (q * 10 ^ n) : ℚ) / 10 ^ n

/-- The shot family of `StatsAggregator`:
`['Shot', 'MissedShots', 'SavedShot', 'ShotOnPost', 'Goal']`. -/
def shotTypes : List String :=
  ["Shot", "MissedShots", "SavedShot", "ShotOnPost", "Goal"]

/-- Source `StatsAggregator._count_shots`. -/
def countShots (events : List Event) : ℕ :=
  (events.filter (fun e => shotTypes.contains e.typeDisplay)).length

/-- Source `StatsAggregator._count_shots_on_target`
(`['SavedShot', 'Goal']`). -/
def countShotsOnTarget (events : List Event) : ℕ :=
  (events.filter (fun e =>
    e.typeDisplay = "SavedShot" ∨ e.typeDisplay = "Goal")).length

/-- Source `StatsAggregator._count_shots_off_target` (`'MissedShots'`). -/
def countShotsOffTarget (events : List Event) : ℕ :=
  (events.filter (fun e => e.typeDisplay = "MissedShots")).length

/-- Source `StatsAggregator._count_blocked_shots` (counts `'BlockedPass'`). -/
def countBlockedShots (events : List Event) : ℕ :=
  (events.filter (fun e => e.typeDisplay = "BlockedPass")).length

/-- Source `StatsAggregator._count_goals`: `Goal` events minus own-goal `Goal`
events (Python int subtraction). -/
def countGoals (events : List Event) : ℤ :=
  ((events.filter (fun e => e.typeDisplay = "Goal")).length : ℤ) -
    ((events.filter (fun e =>
      e.typeDisplay = "Goal" ∧ e.isOwnGoal = true)).length : ℤ)

/-- Source `StatsAggregator._count_passes`. -/
def countPasses (events : List Event) : ℕ :=
  (events.filter (fun e => e.typeDisplay = "Pass")).length

/-- Source `StatsAggregator._count_passes_completed`. -/
def countPassesCompleted (events : List Event) : ℕ :=
  (events.filter (fun e =>
    e.typeDisplay = "Pass" ∧ e.isSuccessful = true)).length

/-- Source `StatsAggregator._calculate_pass_accuracy`:
`round((completed / total) * 100, 1)`, `0.0` when `total == 0`. -/
def calculatePassAccuracy (events : List Event) : ℚ :=
  let total := countPasses events
  if total = 0 then 0
  else pyRound 1 ((countPassesCompleted events : ℚ) / total * 100)

/-- Source `StatsAggregator._calculate_xg`: `round(events['xg'].sum(), 2)`. -/
def calculateXg (events : List Event) : ℚ :=
  pyRound 2 ((events.map (fun e => e.xg)).sum)

/-- The fields of `StatsAggregator.aggregate_team_stats` that this
development reasons about (the remaining counters of the source's flat
dictionary are analogous `len(filter)` counts and are orthogonal to the
claims). -/
structure TeamStats where
  shots : ℕ
  shotsOnTarget : ℕ
  shotsOffTarget : ℕ
  blockedShots : ℕ
  goals : ℤ
  passes : ℕ
  passesCompleted : ℕ
  passAccuracy : ℚ
  touches : ℕ
  xg : ℚ

/-- Source `StatsAggregator.aggregate_team_stats`: partition by
`teamId == team_id`, then apply every counting function to the partition. -/
def aggregateTeamStats (df : List Event) (teamId : ℤ) : TeamStats :=
  let te := df.filter (fun e => e.teamId = teamId)
  { shots := countShots te
    shotsOnTarget := countShotsOnTarget te
    shotsOffTarget := countShotsOffTarget te
    blockedShots := countBlockedShots te
    goals := countGoals te
    passes := countPasses te
    passesCompleted := countPassesCompleted te
    passAccuracy := calculatePassAccuracy te
    touches := te.length
    xg := calculateXg te }

/-! ## Team processor (`src/ETL/transformers/team_processor.py`) -/

/-- Team metadata as fed to `TeamProcessor` (a raw dict; `.get('team_id')`
may return `None`). -/
structure TeamData where
  teamId : Option ℤ := none
  name : String := ""

/-- The `TeamProcessor` state: both team dicts plus the (optional) events
frame. -/
structure TeamProcessor where
  homeTeam : TeamData := {}
  awayTeam : TeamData := {}
  eventsDf : Option (List Event) := none

/-- Output shape of `TeamProcessor.calculate_possession`. -/
structure PossessionPct where
  home : ℚ
  away : ℚ

/-- Count of events whose `teamId` equals the (optional) team id; a missing
id (`None`) matches no row, as in pandas. -/
def teamEventCount (df : List Event) (tid : Option ℤ) : ℕ :=
  match tid with
  | none => 0
  | some t => (df.filter (fun e => e.teamId = t)).length

/-- Source `TeamProcessor.calculate_possession`: 50/50 for a missing or empty
frame, 50/50 when the combined event count is zero, else the event-count
shares scaled to percentages. -/
def calculatePossession (tp : TeamProcessor) : PossessionPct :=
  match tp.eventsDf with
  | none => ⟨50, 50⟩
  | some df =>
    if df.isEmpty then ⟨50, 50⟩
    else
      let h := teamEventCount df tp.homeTeam.teamId
      let a := teamEventCount df tp.awayTeam.teamId
      if h + a = 0 then ⟨50, 50⟩
      else ⟨(h : ℚ) / (h + a) * 100, (a : ℚ) / (h + a) * 100⟩

/-- Whether the source's `distance` column (the square root of
`distanceSq`) is strictly positive; `NaN` compares `false`. -/
def distancePos (e : Event) : Bool :=
  match e.distanceSq with
  | some d => decide (0 < d)
  | none => false

/-- Whether `distance < c` holds in the source (i.e. `distanceSq < c²` for
`c ≥ 0`); `NaN` compares `false`. -/
def distanceLt (c : ℚ) (e : Event) : Bool :=
  match e.distanceSq with
  | some d => decide (d < c ^ 2)
  | none => false

/-- Whether `distance >= c` holds in the source; `NaN` compares `false`. -/
def distanceGe (c : ℚ) (e : Event) : Bool :=
  match e.distanceSq with
  | some d => decide (c ^ 2 ≤ d)
  | none => false

/-- Source `TeamProcessor.calculate_passing_stats` as the flat name→number mapping
the source returns (the irrational `avg_pass_length` mean of square roots is
not carried; it is never compared or branched on downstream).  Note the two
branches return different key sets: `backward_passes` appears only in the
empty-partition branch, and the populated branch's `forward_passes` counts
`passes['distance'] > 0`. -/
def calculatePassingStats (tp : TeamProcessor) (teamId : ℤ) :
    List (String × ℚ) :=
  match tp.eventsDf with
  | none => []
  | some df =>
    if df.isEmpty then []
    else
      let passes := df.filter (fun e =>
        e.teamId = teamId ∧ e.typeDisplay = "Pass")
      if passes.isEmpty then
        [("total_passes", 0), ("completed_passes", 0), ("pass_accuracy", 0),
         ("forward_passes", 0), ("backward_passes", 0), ("short_passes", 0),
         ("long_passes", 0), ("key_passes", 0), ("assists", 0)]
      else
        let completed := passes.filter (fun e => e.isSuccessful)
        [("total_passes", (passes.length : ℚ)),
         ("completed_passes", (completed.length : ℚ)),
         ("pass_accuracy", (completed.length : ℚ) / passes.length * 100),
         ("forward_passes", ((passes.filter distancePos).length : ℚ)),
         ("progressive_passes",
           ((passes.filter (fun e => e.isProgressive)).length : ℚ)),
         ("short_passes", ((passes.filter (distanceLt 15)).length : ℚ)),
         ("long_passes", ((passes.filter (distanceGe 25)).length : ℚ)),
         ("key_passes", ((passes.filter (fun e => e.isKeyPass)).length : ℚ)),
         ("assists", ((passes.filter (fun e => e.isAssist)).length : ℚ))]

/-- Lookup of a statistic in the returned mapping. -/
def statLookup (stats : List (String × ℚ)) (k : String) : Option ℚ :=
  (stats.find? (fun p => p.1 = k)).map (fun p => p.2)

/-! ## Player processor (`src/ETL/transformers/player_processor.py`) -/

/-- One row of the player roster frame (`all_players`). -/
structure PlayerRec where
  playerId : ℤ
  teamId : ℤ
  isFirstEleven : Bool

/-- Source `PlayerProcessor.get_starting_xi`: filter `is_first_eleven == True`,
then the team. -/
def startingXI (players : List PlayerRec) (teamId : ℤ) : List PlayerRec :=
  (players.filter (fun p => p.isFirstEleven)).filter
    (fun p => p.teamId = teamId)

/-- Receiver inference of `PlayerProcessor.get_pass_connections`: the first
row strictly after index `i` (original frame order) whose `teamId` equals
the team and whose `playerId` differs from the passer's.  Implemented, as in
the source, by filtering the whole frame and taking the head
(`next_events.iloc[0]`). -/
def receiverAt (df : List Event) (teamId : ℤ) (i : ℕ) (passerId : ℤ) :
    Option ℤ :=
  ((df.enum.filter (fun je =>
      i < je.1 ∧ je.2.teamId = teamId ∧ je.2.playerId ≠ passerId)).head?).map
    (fun je => je.2.playerId)

/-- The successful-pass rows of the team, with their original frame
indices. -/
def passRows (df : List Event) (teamId : ℤ) : List (ℕ × Event) :=
  df.enum.filter (fun je =>
    je.2.teamId = teamId ∧ je.2.typeDisplay = "Pass" ∧
      je.2.isSuccessful = true)

/-- The `(passer, receiver)` pairs that survive
`get_pass_connections`'s filters: a receiver was found, and both passer and
receiver belong to the starting XI. -/
def passPairs (xiIds : List ℤ) (df : List Event) (teamId : ℤ) :
    List (ℤ × ℤ) :=
  (passRows df teamId).filterMap (fun je =>
    match receiverAt df teamId je.1 je.2.playerId with
    | some r =>
      if xiIds.contains je.2.playerId && xiIds.contains r then
        some (je.2.playerId, r)
      else none
    | none => none)

/-- Source `PlayerProcessor.get_pass_connections`: undirected aggregation via
`(pos_min, pos_max)` keys and the `pass_count >= min_passes` edge filter.
The groupby's key order is immaterial; pairs are listed in first-occurrence
order. -/
def getPassConnections (players : List PlayerRec)
    (eventsDf : Option (List Event)) (teamId : ℤ) (minPasses : ℕ) :
    List ((ℤ × ℤ) × ℕ) :=
  match eventsDf with
  | none => []
  | some df =>
    if df.isEmpty then []
    else
      let xi := (startingXI players teamId).map (fun p => p.playerId)
      if xi.isEmpty then []
      else
        let pairs := (passPairs xi df teamId).map (fun pr =>
          (min pr.1 pr.2, max pr.1 pr.2))
        ((pairs.dedup.map (fun p => (p, pairs.count p))).filter
          (fun c => minPasses ≤ c.2))

/-! ## Match processor (`src/ETL/transformers/match_processor.py`) -/

/-- Opaque match metadata (`match_info`), passed through unchanged. -/
structure MatchInfo where
  raw : String := ""

/-- The `match_centre` payload of a WhoScored extraction result.
`events = some evs` models an `events` dict carrying an `all_events`
list. -/
structure MatchCentre where
  success : Bool := false
  events : Option (List RawEvent) := none
  homeTeam : TeamData := {}
  awayTeam : TeamData := {}
  matchInfo : MatchInfo := {}

/-- The `whoscored_data` argument of `MatchProcessor`. -/
structure WhoscoredData where
  matchCentre : Option MatchCentre := none

/-- The `MatchProcessor` instance state.  Attributes assigned only inside the
`if match_centre.get('success'):` block of `__init__` (`match_info`,
the sub-processors' data) are `Option`s that are `none` when the block was
skipped — reading them then is an `AttributeError`. -/
structure MatchProcessor where
  success : Bool
  matchInfo : Option MatchInfo
  eventsDf : Option (List Event)
  homeTeamData : Option TeamData
  awayTeamData : Option TeamData

instance : Inhabited MatchCentre := ⟨{}⟩

/-- Source `MatchProcessor.__init__`.  Normalization failures inside
`EventProcessor` propagate. -/
def MatchProcessor.init (wd : WhoscoredData) :
    Except String MatchProcessor :=
  let mc := wd.matchCentre.getD {}
  if mc.success then
    match mc.events with
    | some evs =>
      (createEventsDataframe evs).map (fun df =>
        { success := true
          matchInfo := some mc.matchInfo
          eventsDf := some df
          homeTeamData := some mc.homeTeam
          awayTeamData := some mc.awayTeam })
    | none =>
      .ok { success := true
            matchInfo := some mc.matchInfo
            eventsDf := none
            homeTeamData := some mc.homeTeam
            awayTeamData := some mc.awayTeam }
  else
    .ok { success := mc.success
          matchInfo := none
          eventsDf := none
          homeTeamData := none
          awayTeamData := none }

/-- The parts of the summary dict built by
`MatchProcessor.get_complete_match_summary` that this development reasons
about: on the `success=False` path the summary holds only `match_info` and
the flag; otherwise teams, possession and the statistic bundles are
attached. -/
structure MatchSummary where
  matchInfo : MatchInfo
  success : Bool
  teams : Option (TeamData × TeamData) := none
  possession : Option PossessionPct := none
  statsAttached : Bool := false

/-- Source `MatchProcessor.get_complete_match_summary`.  The very first statement
builds `{'match_info': self.match_info, ...}`, so a processor whose
`__init__` skipped the success block raises `AttributeError` before the
`success` flag is ever consulted. -/
def MatchProcessor.getCompleteMatchSummary (mp : MatchProcessor) :
    Except String MatchSummary :=
  match mp.matchInfo with
  | none =>
    .error "AttributeError: 'MatchProcessor' object has no attribute 'match_info'"
  | some mi =>
    if mp.success = false then
      .ok { matchInfo := mi, success := mp.success }
    else
      let home := mp.homeTeamData.getD {}
      let away := mp.awayTeamData.getD {}
      let tp : TeamProcessor :=
        { homeTeam := home, awayTeam := away, eventsDf := mp.eventsDf }
      .ok { matchInfo := mi
            success := mp.success
            teams := some (home, away)
            possession := some (calculatePossession tp)
            statsAttached := true }

/-! ## Zonal control grid -/

/-- A cell's classification (`'H'` / `'A'` / `'C'` in the zone matrix). -/
inductive ZoneLabel where
  | home : ZoneLabel
  | away : ZoneLabel
  | contested : ZoneLabel

/-- Touches of a team inside grid cell `(r, c)` of a `gridRows × gridCols`
partition of the 105×68 pitch.  Cell membership is `start ≤ coord < end`
with equal-width bins, the binning used by the in-repo rendering analogue
`MatchVisualizer.create_pitch_control_map`; rows with a missing coordinate
fall in no cell. -/
def cellTouches (df : List Event) (teamId : ℤ) (gridCols gridRows r c : ℕ) :
    ℕ :=
  let xw : ℚ := 105 / gridCols
  let yw : ℚ := 68 / gridRows
  (df.filter (fun e =>
    e.teamId = teamId &&
      match e.x, e.y with
      | some x, some y =>
        decide (c * xw ≤ x ∧ x < (c + 1) * xw ∧ r * yw ≤ y ∧ y < (r + 1) * yw)
      | _, _ => false)).length

/-- Modelled from the spec: `EventProcessor.calculate_zonal_control` is
invoked by `Reporting/report_generator.py` and `app.py` and its output
rendered by `Visual/tactical_visualizations.py`, but its definition is not
in the source tree.  Per the spec, a cell is `Home` when the home share of
its touches exceeds 0.6, `Away` when the share is below 0.4, and `Contested`
otherwise; a cell with no touches is `Contested`. -/
def zoneLabelAt (df : List Event) (homeId awayId : ℤ)
    (gridCols gridRows r c : ℕ) : ZoneLabel :=
  let h := cellTouches df homeId gridCols gridRows r c
  let a := cellTouches df awayId gridCols gridRows r c
  if h + a = 0 then .contested
  else if (h : ℚ) / (h + a) > 0.6 then .home
  else if (h : ℚ) / (h + a) < 0.4 then .away
  else .contested

/-- Modelled from the spec: the full `grid_rows × grid_cols` zone matrix of
`calculate_zonal_control` (row-major, matching the `zone_matrix[row, col]`
consumption in `Visual/tactical_visualizations.py`). -/
def calculateZonalControl (df : List Event) (homeId awayId : ℤ)
    (gridCols gridRows : ℕ) : List (List ZoneLabel) :=
  (List.range gridRows).map (fun r =>
    (List.range gridCols).map (fun c =>
      zoneLabelAt df homeId awayId gridCols gridRows r c))

/-! ## Spec-side reference definitions

Each of the following definitions renders a sentence of the specification
(not the source), for comparison against the source embedding above. -/

/-- The receiver rule exactly as the spec words it: the player of the first
subsequent row (table order) whose `team_id` equals the team, regardless of
that event's type (and, in particular, regardless of its player). -/
def specFirstSameTeamPlayer (df : List Event) (teamId : ℤ) (i : ℕ) :
    Option ℤ :=
  (df.enum.find? (fun je => i < je.1 ∧ je.2.teamId = teamId)).map
    (fun je => je.2.playerId)

/-- The pass accuracy the spec says aggregation produces: the unrounded
ratio `100 × completed / total`, `0.0` when `total == 0`. -/
def specUnroundedPassAccuracy (events : List Event) : ℚ :=
  if countPasses events = 0 then 0
  else (countPassesCompleted events : ℚ) / countPasses events * 100

/-- The xG total the spec says aggregation produces: the unrounded sum. -/
def specUnroundedXg (events : List Event) : ℚ :=
  (events.map (fun e => e.xg)).sum

/-- Forward passes as the spec defines them: positive endpoint-minus-origin
x displacement. -/
def specForwardPasses (passes : List Event) : ℕ :=
  (passes.filter (fun e =>
    match e.endX, e.x with
    | some ex, some x => decide (0 < ex - x)
    | _, _ => false)).length

/-- Backward passes as the spec defines them: negative endpoint-minus-origin
x displacement. -/
def specBackwardPasses (passes : List Event) : ℕ :=
  (passes.filter (fun e =>
    match e.endX, e.x with
    | some ex, some x => decide (ex - x < 0)
    | _, _ => false)).length

/-- The per-key reading of the spec's qualifier-decoding rules: the stored
value under a key is the value of the last qualifier of the list that
stores under it (value field if present, else boolean `true`). -/
def lastContribution (l : List JVal) (k : String) : Option JVal :=
  (l.filterMap qualifierEntry).foldl
    (fun acc p => if p.1 = k then some p.2 else acc) none

/-! ## Concrete inputs for counterexamples and witnesses -/

/-- An extraction result whose match-centre extraction reports
`success=false` (structurally absent event feed). -/
def wdFail : WhoscoredData :=
  { matchCentre := some
      ({ success := false,
         matchInfo := ⟨"home vs away, events missing"⟩ } : MatchCentre) }

/-- Shorthand for a minimal normalized event row. -/
def mkEv (t p : ℤ) (ty : String) (succ : Bool) : Event :=
  { teamId := t, playerId := p, typeDisplay := ty, isSuccessful := succ }

/-- Event table for the receiver counterexample: a successful pass by
player 10, then another touch by player 10 (same team), then a pass by
player 20 (same team). -/
def dfRecv : List Event :=
  [mkEv 1 10 "Pass" true, mkEv 1 10 "Clearance" true, mkEv 1 20 "Pass" true]

/-- Roster for the receiver counterexample: players 10 and 20 start for
team 1. -/
def rosterRecv : List PlayerRec := [⟨10, 1, true⟩, ⟨20, 1, true⟩]

/-- Team-1 event table with three passes, one successful, carrying xg 1/3
on two of them: the unrounded accuracy is 100/3 and the unrounded xg sum is
2/3. -/
def dfRound : List Event :=
  [{ mkEv 1 1 "Pass" true with xg := 1 / 3 },
   { mkEv 1 1 "Pass" false with xg := 1 / 3 },
   mkEv 1 1 "Pass" false]

/-- A single successful *backward* pass (endpoint x smaller than origin x)
of strictly positive length. -/
def dfBackward : List Event :=
  [{ mkEv 1 1 "Pass" true with
      x := some 50, y := some 30, endX := some 40, endY := some 30,
      distanceSq := some 100 }]

/-- The team processor holding `dfBackward`. -/
def tpBackward : TeamProcessor := { eventsDf := some dfBackward }

/-- A one-event batch carrying `x`/`y` (and a well-formed qualifier list)
but no `endX`/`endY` anywhere: the spatial-metrics step dereferences the
absent columns. -/
def rawNoEndX : List RawEvent :=
  [{ teamId := 1, x := some 50, y := some 50, qualifiers := .arr [] }]

/-- A record carrying all four coordinates. -/
def rawFullEv : RawEvent :=
  { teamId := 1, x := some 10, y := some 10,
    endX := some 30, endY := some 30 }

/-- A record lacking `endX`/`endY` (its derived metrics must default). -/
def rawNoEndEv : RawEvent := { teamId := 1, x := some 20, y := some 20 }

/-- A two-event batch in which every coordinate column exists but the
second event lacks `endX`/`endY`. -/
def rawPartial : List RawEvent := [rawFullEv, rawNoEndEv]

/-- A raw batch with two `Goal` events for team 1, one of them an own goal,
plus an opposition event; all rows carry coordinates. -/
def rawGoals : List RawEvent :=
  [{ teamId := 1, playerId := 7, x := some 90, y := some 34,
     endX := some 105, endY := some 34,
     type := some (.obj [("displayName", .str "Goal"), ("value", .num 16)]),
     qualifiers := .arr [] },
   { teamId := 1, playerId := 5, x := some 10, y := some 34,
     endX := some 0, endY := some 34,
     type := some (.obj [("displayName", .str "Goal"), ("value", .num 16)]),
     qualifiers := .arr [.obj [("type",
       .obj [("displayName", .str "OwnGoal"), ("value", .num 28)])]] },
   { teamId := 2, playerId := 9, x := some 50, y := some 30,
     endX := some 60, endY := some 30,
     type := some (.obj [("displayName", .str "Pass"), ("value", .num 1)]),
     outcomeType := some (.obj [("displayName", .str "Successful")]),
     qualifiers := .arr [] }]

/-- A team processor over events of two teams, 2 home events and 1 away
event. -/
def tpPoss : TeamProcessor :=
  { homeTeam := { teamId := some 1 }, awayTeam := { teamId := some 2 },
    eventsDf := some [mkEv 1 1 "Pass" true, mkEv 1 2 "Pass" true,
      mkEv 2 3 "Pass" false] }

/-- A touch of a team at pitch position (1, 1), inside grid cell (0, 0) of
any grid. -/
def touchEv (t : ℤ) : Event := { teamId := t, x := some 1, y := some 1 }

/-- Zonal-control scenario of the spec: 7 home and 3 away touches in one
cell (70% home share). -/
def dfZone73 : List Event :=
  List.replicate 7 (touchEv 1) ++ List.replicate 3 (touchEv 2)

/-- Zonal-control scenario of the spec: 5 home and 5 away touches in one
cell. -/
def dfZone55 : List Event :=
  List.replicate 5 (touchEv 1) ++ List.replicate 5 (touchEv 2)

/-- The qualifier list of the decoder counterexample: one qualifier whose
`type.displayName` key is present but holds the empty string, with an
attached value. -/
def exEmptyName : JVal :=
  .arr [.obj [("type", .obj [("displayName", .str "")]), ("value", .num 5)]]

/-- A well-formed qualifier storing `n` under key `"K"`. -/
def qK (n : ℚ) : JVal :=
  .obj [("type", .obj [("displayName", .str "K")]), ("value", .num n)]

/-! ## Helper lemmas -/

theorem head?_filter_eq_find? {α : Type} (p : α → Bool) (l : List α) :
    (l.filter p).head? = l.find? p := by
  induction l with
  | nil => rfl
  | cons a l ih =>
    by_cases h : p a = true
    · simp [List.filter_cons, List.find?_cons, h]
    · simp only [Bool.not_eq_true] at h
      simp [List.filter_cons, List.find?_cons, h, ih]

theorem dictLookup_dictInsert (m : List (String × JVal)) (k k' : String)
    (v : JVal) :
    dictLookup (dictInsert m k v) k' =
      if k' = k then some v else dictLookup m k' := by
  unfold dictInsert dictLookup
  by_cases hm : m.any (fun p => p.1 = k) = true
  · rw [if_pos hm, List.find?_map]
    by_cases hk : k' = k
    · subst hk
      have hpred : ((fun p : String × JVal => decide (p.1 = k')) ∘
          fun p => if p.1 = k' then (k', v) else p) =
          fun p : String × JVal => decide (p.1 = k') := by
        funext p
        by_cases hp : p.1 = k' <;> simp [hp]
      rw [hpred]
      obtain ⟨q, hq⟩ : ∃ q, m.find? (fun p => decide (p.1 = k')) = some q := by
        have := List.any_eq_true.mp hm
        obtain ⟨p, hp, hpk⟩ := this
        have : (m.find? (fun p => decide (p.1 = k'))).isSome := by
          rw [List.find?_isSome]
          exact ⟨p, hp, hpk⟩
        exact Option.isSome_iff_exists.mp this
      have hq1 : q.1 = k' := by simpa using List.find?_some hq
      rw [hq]
      simp [hq1]
    · have hpred : ((fun p : String × JVal => decide (p.1 = k')) ∘
          fun p => if p.1 = k then (k, v) else p) =
          fun p : String × JVal => decide (p.1 = k') := by
        funext p
        by_cases hp : p.1 = k <;>
          simp [hp, fun h : k = k' => hk h.symm]
      rw [hpred, if_neg hk]
      cases hfind : m.find? (fun p => decide (p.1 = k')) with
      | none => rfl
      | some q =>
        have hq1 : q.1 = k' := by simpa using List.find?_some hfind
        have : ¬q.1 = k := fun h => hk (by rw [← hq1, h])
        simp [this]
  · rw [if_neg hm, List.find?_append]
    have hnone : m.find? (fun p => decide (p.1 = k)) = none := by
      rw [List.find?_eq_none]
      intro p hp
      simp only [Bool.not_eq_true, decide_eq_false_iff_not]
      intro hpk
      exact hm (List.any_eq_true.mpr ⟨p, hp, by simpa using hpk⟩)
    by_cases hk : k' = k
    · subst hk
      rw [hnone]
      simp
    · cases hfind : m.find? (fun p => decide (p.1 = k')) with
      | none =>
        simp [if_neg hk, List.find?_cons, Ne.symm hk]
      | some q =>
        simp [if_neg hk]

theorem dictLookup_qualifier_foldl (l : List JVal) (k : String) :
    ∀ acc : List (String × JVal),
      dictLookup (l.foldl (fun acc q =>
          match qualifierEntry q with
          | some kv => dictInsert acc kv.1 kv.2
          | none => acc) acc) k =
        (l.filterMap qualifierEntry).foldl
          (fun acc p => if p.1 = k then some p.2 else acc)
          (dictLookup acc k) := by
  induction l with
  | nil => intro acc; rfl
  | cons q l ih =>
    intro acc
    cases hq : qualifierEntry q with
    | none => simp [List.foldl_cons, List.filterMap_cons, hq, ih]
    | some kv =>
      simp only [List.foldl_cons, List.filterMap_cons, hq]
      rw [ih]
      have : dictLookup (dictInsert acc kv.1 kv.2) k =
          (if kv.1 = k then some kv.2 else dictLookup acc k) := by
        rw [dictLookup_dictInsert]
        by_cases hk : k = kv.1
        · simp [hk]
        · rw [if_neg hk, if_neg (fun h : kv.1 = k => hk h.symm)]
      rw [this]

/-! ## Claim theorems -/

/-- **C1** (`error_handling`, code bug).  The spec says a structurally
absent event feed (`success=false` from the match-centre extraction) makes
`get_complete_match_summary` return a summary marked `success=false` with no
statistics instead of aborting.  On the code, `__init__` assigns
`self.match_info` only inside its `if match_centre.get('success'):` block,
and `get_complete_match_summary` reads `self.match_info` in its very first
statement — before the early `success=False` return can trigger — so the
call raises `AttributeError` instead of returning the degraded summary. -/
theorem c1_absent_feed_raises :
    MatchProcessor.init wdFail =
      .ok { success := false, matchInfo := none, eventsDf := none,
            homeTeamData := none, awayTeamData := none } ∧
    (MatchProcessor.init wdFail).bind MatchProcessor.getCompleteMatchSummary =
      .error
        "AttributeError: 'MatchProcessor' object has no attribute 'match_info'" :=
  ⟨rfl, rfl⟩

/-- **C7** (`algebraic_relational`, confirmed).  Possession is the
event-count share `home_events / (home_events + away_events) × 100` per
side, the two percentages sum to exactly 100, and both are exactly 50 when
the combined event count is zero — in particular for the empty and the
missing event table. -/
theorem c7_possession_zero_sum :
    (∀ tp : TeamProcessor,
      (calculatePossession tp).home + (calculatePossession tp).away = 100) ∧
    (∀ (ht aw : TeamData) (df : List Event),
      teamEventCount df ht.teamId + teamEventCount df aw.teamId = 0 →
      calculatePossession ⟨ht, aw, some df⟩ = ⟨50, 50⟩) ∧
    (∀ ht aw : TeamData, calculatePossession ⟨ht, aw, none⟩ = ⟨50, 50⟩) ∧
    (∀ (ht aw : TeamData) (df : List Event),
      teamEventCount df ht.teamId + teamEventCount df aw.teamId ≠ 0 →
      (calculatePossession ⟨ht, aw, some df⟩).home =
        (teamEventCount df ht.teamId : ℚ) /
          ((teamEventCount df ht.teamId : ℚ) +
            (teamEventCount df aw.teamId : ℚ)) * 100 ∧
      (calculatePossession ⟨ht, aw, some df⟩).away =
        (teamEventCount df aw.teamId : ℚ) /
          ((teamEventCount df ht.teamId : ℚ) +
            (teamEventCount df aw.teamId : ℚ)) * 100) := by
  refine ⟨?_, ?_, ?_, ?_⟩
  · intro tp
    obtain ⟨ht, aw, odf⟩ := tp
    cases odf with
    | none => norm_num [calculatePossession]
    | some df =>
      simp only [calculatePossession]
      split_ifs with h1 h2
      · norm_num
      · norm_num
      · have hq : (teamEventCount df ht.teamId : ℚ) +
            (teamEventCount df aw.teamId : ℚ) ≠ 0 := by
          intro h
          apply h2
          exact_mod_cast h
        field_simp
        ring
  · intro ht aw df h0
    simp only [calculatePossession]
    split_ifs <;> rfl
  · intro ht aw
    rfl
  · intro ht aw df hne
    have hemp : df.isEmpty = false := by
      cases hdf : df.isEmpty
      · rfl
      · exfalso
        apply hne
        have hnil : df = [] := List.isEmpty_iff.mp hdf
        subst hnil
        cases ht.teamId <;> cases aw.teamId <;> simp [teamEventCount]
    simp only [calculatePossession, hemp, Bool.false_eq_true, if_false,
      if_neg hne]
    constructor <;> trivial

/-- **C9** (`functional_correctness`, corrected): the counterexample.  The
claim says every qualifier with a `type.displayName` key contributes
`{type: value}`; but the source guards storage behind Python truthiness
(`if q_type:`), so a qualifier whose `displayName` is present but equal to
the empty string is skipped: decoding `[{'type': {'displayName': ''},
'value': 5}]` yields `{}`, not `{'': 5}`. -/
theorem c9_decoder_counterexample :
    qualifierEntry
        (.obj [("type", .obj [("displayName", .str "")]), ("value", .num 5)]) =
      none ∧
    processQualifiers exEmptyName = [] ∧
    dictLookup (processQualifiers exEmptyName) "" ≠ some (.num 5) := by
  refine ⟨rfl, rfl, ?_⟩
  rw [show processQualifiers exEmptyName = [] from rfl]
  simp [dictLookup]

/-- **C9** (amended).  Decoding a qualifier list stores, under each key,
the value of the *last* qualifier whose `type.displayName` is that
(non-empty) key — the value field when present, boolean `true` otherwise,
per `qualifierEntry` — and any non-list input yields the empty mapping
without raising; qualifiers with a missing, non-dict, or empty-string
`displayName` are skipped individually. -/
theorem c9_decoder_amended :
    (∀ v : JVal, v.isArr = false → processQualifiers v = []) ∧
    (∀ (l : List JVal) (k : String),
      dictLookup (processQualifiers (.arr l)) k = lastContribution l k) := by
  constructor
  · intro v hv
    cases v <;> simp_all [processQualifiers, JVal.isArr]
  · intro l k
    have h := dictLookup_qualifier_foldl l k []
    have h0 : dictLookup ([] : List (String × JVal)) k = none := rfl
    rw [h0] at h
    exact h

/-- **C9** witness: the amended theorem applied to a non-list input and to
a concrete list with a repeated key (last-write-wins observed). -/
theorem c9_decoder_amended_witness :
    processQualifiers (.obj []) = [] ∧
    dictLookup (processQualifiers (.arr [qK 1, qK 2])) "K" = some (.num 2) := by
  refine ⟨c9_decoder_amended.1 (.obj []) rfl, ?_⟩
  rw [c9_decoder_amended.2]
  rfl

/-- **C3** (`functional_correctness`, corrected): the counterexample.  The
claim says `pass_accuracy` and `xg` leave aggregation unrounded; but
`_calculate_pass_accuracy` rounds to 1 decimal place and `_calculate_xg` to
2 inside the aggregation helpers: on three passes with one completed the
aggregator emits 33.3 rather than 100/3, and on an xg sum of 2/3 it emits
0.67. -/
theorem c3_rounding_counterexample :
    (aggregateTeamStats dfRound 1).passAccuracy = 333 / 10 ∧
    specUnroundedPassAccuracy (dfRound.filter (fun e => e.teamId = 1)) =
      100 / 3 ∧
    (aggregateTeamStats dfRound 1).passAccuracy ≠
      specUnroundedPassAccuracy (dfRound.filter (fun e => e.teamId = 1)) ∧
    (aggregateTeamStats dfRound 1).xg = 67 / 100 ∧
    specUnroundedXg (dfRound.filter (fun e => e.teamId = 1)) = 2 / 3 ∧
    (aggregateTeamStats dfRound 1).xg ≠
      specUnroundedXg (dfRound.filter (fun e => e.teamId = 1)) := by
  norm_num [aggregateTeamStats, dfRound, mkEv, calculatePassAccuracy,
    calculateXg, countPasses, countPassesCompleted, specUnroundedPassAccuracy,
    specUnroundedXg, pyRound, roundHalfEven, List.filter]

/-- **C3** (amended).  The percentage/ratio statistics are rounded *inside*
the aggregation helpers, not at the export boundary: for every event table
and team, the aggregated `pass_accuracy` equals the unrounded ratio rounded
to 1 decimal place (0.0 for an empty pass partition) and the aggregated
`xg` equals the unrounded sum rounded to 2 decimal places. -/
theorem c3_rounding_inside_aggregation (df : List Event) (teamId : ℤ) :
    (aggregateTeamStats df teamId).passAccuracy =
      pyRound 1
        (specUnroundedPassAccuracy (df.filter (fun e => e.teamId = teamId))) ∧
    (aggregateTeamStats df teamId).xg =
      pyRound 2 (specUnroundedXg (df.filter (fun e => e.teamId = teamId))) := by
  constructor
  · simp only [aggregateTeamStats, calculatePassAccuracy,
      specUnroundedPassAccuracy]
    split_ifs with h
    · norm_num [pyRound, roundHalfEven]
    · rfl
  · rfl

theorem length_filter_add_length_filter_le {α : Type} (l : List α)
    (p q r : α → Bool)
    (hpr : ∀ a, p a = true → r a = true)
    (hqr : ∀ a, q a = true → r a = true)
    (hpq : ∀ a, ¬(p a = true ∧ q a = true)) :
    (l.filter p).length + (l.filter q).length ≤ (l.filter r).length := by
  induction l with
  | nil => simp
  | cons a l ih =>
    simp only [List.filter_cons]
    have hpra := hpr a
    have hqra := hqr a
    have hpqa := hpq a
    cases hp : p a <;> cases hq : q a <;> cases hr : r a <;>
      simp_all <;> omega

/-- **C10** (`algebraic_relational`, confirmed).  On-target (SavedShot,
Goal) and off-target (MissedShots) shots are disjoint subsets of the shot
family, so their counts sum to at most `shots`; `blocked_shots` counts
`BlockedPass` events of the team, and `BlockedPass` events never alter the
`shots` total (removing all of them leaves it unchanged). -/
theorem c10_shot_family_partition (df : List Event) (teamId : ℤ) :
    (aggregateTeamStats df teamId).shotsOnTarget +
      (aggregateTeamStats df teamId).shotsOffTarget ≤
      (aggregateTeamStats df teamId).shots ∧
    (aggregateTeamStats df teamId).shots =
      (aggregateTeamStats
        (df.filter (fun e => ¬e.typeDisplay = "BlockedPass")) teamId).shots ∧
    (aggregateTeamStats df teamId).blockedShots =
      (df.filter (fun e =>
        e.teamId = teamId ∧ e.typeDisplay = "BlockedPass")).length := by
  refine ⟨?_, ?_, ?_⟩
  · simp only [aggregateTeamStats, countShots, countShotsOnTarget,
      countShotsOffTarget]
    apply length_filter_add_length_filter_le
    · intro a ha
      simp only [decide_eq_true_eq] at ha
      rcases ha with h | h <;> rw [h] <;> rfl
    · intro a ha
      simp only [decide_eq_true_eq] at ha
      rw [ha]
      rfl
    · intro a ⟨h1, h2⟩
      simp only [decide_eq_true_eq] at h1 h2
      rcases h1 with h | h <;> rw [h2] at h <;> simp at h
  · simp only [aggregateTeamStats, countShots, List.filter_filter]
    rw [List.filter_congr]
    intro e _
    by_cases hbp : e.typeDisplay = "BlockedPass"
    · simp [hbp, shotTypes]
    · simp [hbp]
  · simp only [aggregateTeamStats, countBlockedShots, List.filter_filter]
    congr 1
    apply List.filter_congr
    intro e _
    simp [Bool.and_comm]

/-- **C8** (`functional_correctness`, confirmed).  End to end: for every
raw batch that normalizes successfully, the aggregated `goals` of a team
equals the count of the team's `Goal`-type raw events minus the count of
those whose decoded qualifier map contains the key `OwnGoal` — own goals
are excluded from the scoring team's tally and credited to no one, and the
`is_own_goal` flag is exactly `OwnGoal` membership in the decoded map. -/
theorem c8_goals_exclude_own_goals (batch : List RawEvent) (df : List Event)
    (teamId : ℤ) (h : createEventsDataframe batch = .ok df) :
    (aggregateTeamStats df teamId).goals =
      ((batch.filter (fun e =>
        e.teamId = teamId ∧ displayNameOf e.type = "Goal")).length : ℤ) -
      ((batch.filter (fun e =>
        e.teamId = teamId ∧ displayNameOf e.type = "Goal" ∧
          dictContains (processQualifiers e.qualifiers) "OwnGoal" =
            true)).length : ℤ) := by
  have hdf : df = batch.map mkRow := by
    unfold createEventsDataframe at h
    by_cases hemp : batch.isEmpty
    · rw [if_pos hemp] at h
      have hnil : batch = [] := List.isEmpty_iff.mp hemp
      subst hnil
      simpa using (Except.ok.inj h).symm
    · rw [if_neg hemp] at h
      by_cases hc : (hasCol batch (fun e => e.x) &&
          hasCol batch (fun e => e.y) && hasCol batch (fun e => e.endX) &&
          hasCol batch (fun e => e.endY)) = true
      · rw [if_pos hc] at h
        exact (Except.ok.inj h).symm
      · rw [if_neg hc] at h
        exact absurd h (by simp)
  subst hdf
  simp only [aggregateTeamStats, countGoals, List.filter_filter,
    ← List.countP_eq_length_filter, List.countP_map]
  congr 2
  · apply List.countP_congr
    intro e _
    simp only [Function.comp, mkRow, Bool.and_eq_true, decide_eq_true_eq]
    tauto
  · apply List.countP_congr
    intro e _
    simp only [Function.comp, mkRow, Bool.and_eq_true, decide_eq_true_eq]
    tauto

/-- **C8** witness: a batch with a normal goal and an own goal for team 1
(plus an opposition event) aggregates to exactly one goal for team 1, and
the own-goal row carries `is_own_goal = true`. -/
theorem c8_goals_exclude_own_goals_witness :
    (aggregateTeamStats (rawGoals.map mkRow) 1).goals = 1 ∧
    (rawGoals.map mkRow).map (fun e => e.isOwnGoal) = [false, true, false] := by
  constructor
  · rw [c8_goals_exclude_own_goals rawGoals (rawGoals.map mkRow) 1 rfl]
    rfl
  · rfl

/-- **C7** witness: the possession theorem applied to a 2-home/1-away table
(share 200/3 per cent for home), to the empty table, and to a missing
table. -/
theorem c7_possession_zero_sum_witness :
    (calculatePossession tpPoss).home + (calculatePossession tpPoss).away =
      100 ∧
    (calculatePossession tpPoss).home = 200 / 3 ∧
    calculatePossession ⟨⟨some 1, ""⟩, ⟨some 2, ""⟩, some []⟩ = ⟨50, 50⟩ ∧
    calculatePossession ⟨⟨some 1, ""⟩, ⟨some 2, ""⟩, none⟩ = ⟨50, 50⟩ := by
  refine ⟨c7_possession_zero_sum.1 tpPoss, ?_,
    c7_possession_zero_sum.2.1 ⟨some 1, ""⟩ ⟨some 2, ""⟩ [] rfl,
    c7_possession_zero_sum.2.2.1 ⟨some 1, ""⟩ ⟨some 2, ""⟩⟩
  have h4 := (c7_possession_zero_sum.2.2.2 ⟨some 1, ""⟩ ⟨some 2, ""⟩
    [mkEv 1 1 "Pass" true, mkEv 1 2 "Pass" true, mkEv 2 3 "Pass" false]
    (by decide)).1
  have hh : teamEventCount
      [mkEv 1 1 "Pass" true, mkEv 1 2 "Pass" true, mkEv 2 3 "Pass" false]
      (TeamData.teamId ⟨some 1, ""⟩) = 2 := rfl
  have ha : teamEventCount
      [mkEv 1 1 "Pass" true, mkEv 1 2 "Pass" true, mkEv 2 3 "Pass" false]
      (TeamData.teamId ⟨some 2, ""⟩) = 1 := rfl
  rw [hh, ha] at h4
  have : calculatePossession tpPoss = calculatePossession
      ⟨⟨some 1, ""⟩, ⟨some 2, ""⟩, some [mkEv 1 1 "Pass" true,
        mkEv 1 2 "Pass" true, mkEv 2 3 "Pass" false]⟩ := rfl
  rw [this, h4]
  norm_num

/-- **C2** (`functional_correctness`, corrected): the counterexample.  The
claim says the receiver of a pass is the player of the first subsequent
same-team row; but `get_pass_connections` additionally requires
`playerId != pass_row['playerId']`.  After a pass by player 10, the next
same-team row is another touch by player 10 — the claim's rule names 10,
the code skips it and names player 20, and the network edge built from the
table is `(10, 20)`. -/
theorem c2_receiver_counterexample :
    specFirstSameTeamPlayer dfRecv 1 0 = some 10 ∧
    receiverAt dfRecv 1 0 10 = some 20 ∧
    getPassConnections rosterRecv (some dfRecv) 1 0 = [((10, 20), 1)] :=
  ⟨rfl, rfl, rfl⟩

/-- **C2** (amended).  The inferred receiver of a pass at row `i` by player
P on team T is the player of the first subsequent row (table order) whose
`team_id` equals T *and whose player differs from P*, regardless of that
event's type; a pass with no receiver is excluded from pass-network edges
(the total edge weight of the unfiltered network equals exactly the number
of starting-XI passes for which a starting-XI receiver was found). -/
theorem c2_receiver_rule_amended :
    (∀ (df : List Event) (teamId : ℤ) (i : ℕ) (passerId : ℤ),
      receiverAt df teamId i passerId =
        (df.enum.find? (fun je =>
          i < je.1 ∧ je.2.teamId = teamId ∧ je.2.playerId ≠ passerId)).map
          (fun je => je.2.playerId)) ∧
    (∀ (xiIds : List ℤ) (df : List Event) (teamId : ℤ),
      (passPairs xiIds df teamId).length ≤
        ((passRows df teamId).filter (fun je =>
          (receiverAt df teamId je.1 je.2.playerId).isSome)).length) ∧
    (∀ (players : List PlayerRec) (df : List Event) (teamId : ℤ),
      ((getPassConnections players (some df) teamId 0).map
        (fun conn => conn.2)).sum =
        (passPairs ((startingXI players teamId).map (fun p => p.playerId))
          df teamId).length) := by
  refine ⟨?_, ?_, ?_⟩
  · intro df teamId i passerId
    unfold receiverAt
    rw [head?_filter_eq_find?]
  · intro xiIds df teamId
    unfold passPairs
    rw [List.length_filterMap_eq_countP, ← List.countP_eq_length_filter]
    apply List.countP_mono_left
    intro je _ hje
    cases hrecv : receiverAt df teamId je.1 je.2.playerId with
    | none => rw [hrecv] at hje; simp at hje
    | some r => simp [hrecv]
  · intro players df teamId
    by_cases hemp : df.isEmpty = true
    · have hnil : df = [] := List.isEmpty_iff.mp hemp
      subst hnil
      simp [getPassConnections, passRows, passPairs]
    · simp only [Bool.not_eq_true] at hemp
      by_cases hxi :
          ((startingXI players teamId).map (fun p => p.playerId)).isEmpty =
            true
      · have hpp : passPairs ((startingXI players teamId).map
            (fun p => p.playerId)) df teamId = [] := by
          rw [List.isEmpty_iff.mp hxi]
          unfold passPairs
          rw [List.filterMap_eq_nil_iff]
          intro je _
          cases hrecv : receiverAt df teamId je.1 je.2.playerId <;>
            simp [hrecv]
        simp [getPassConnections, hemp, hxi, hpp]
      · simp only [Bool.not_eq_true] at hxi
        simp only [getPassConnections, hemp, hxi, Bool.false_eq_true,
          if_false]
        have hfilter : ∀ cs : List ((ℤ × ℤ) × ℕ),
            cs.filter (fun c => 0 ≤ c.2) = cs := by
          intro cs
          apply List.filter_eq_self.mpr
          intro c _
          simp
        rw [hfilter, List.map_map]
        have hsum := List.sum_map_count_dedup_eq_length
          ((passPairs ((startingXI players teamId).map (fun p => p.playerId))
            df teamId).map (fun pr => (min pr.1 pr.2, max pr.1 pr.2)))
        simp only [Function.comp_def]
        have hbeq : ∀ y x : ℤ × ℤ,
            (@BEq.beq (ℤ × ℤ) instBEqProd y x) =
              (@BEq.beq (ℤ × ℤ) instBEqOfDecidableEq y x) := by
          intro y x
          obtain ⟨y1, y2⟩ := y
          obtain ⟨x1, x2⟩ := x
          by_cases h1 : y1 = x1 <;> by_cases h2 : y2 = x2 <;>
            simp [instBEqProd, instBEqOfDecidableEq, h1, h2, Prod.ext_iff]
        have hbridge : ∀ (l : List (ℤ × ℤ)) (x : ℤ × ℤ),
            l.count x = @List.count (ℤ × ℤ)
              (instBEqOfDecidableEq) x l := by
          intro l x
          rw [@List.count_eq_countP, @List.count_eq_countP]
          apply List.countP_congr
          intro y _
          rw [hbeq y x]
        simp only [hbridge]
        simpa using hsum

/-- **C6** (`safety`, corrected): the counterexample.  The claim says
normalization never raises when `end_x`/`end_y` are absent from the whole
batch; but coordinate scaling is per-column guarded while
`_add_spatial_metrics` dereferences `df['endX']`/`df['endY']` unguarded, so
a nonempty batch with no `endX` column anywhere raises `KeyError`. -/
theorem c6_missing_column_counterexample :
    rawNoEndX ≠ [] ∧
    createEventsDataframe rawNoEndX =
      .error "KeyError: missing coordinate column in _add_spatial_metrics" :=
  ⟨by simp [rawNoEndX], rfl⟩

/-- **C6** (amended).  When each of the four coordinate columns occurs on
at least one record of the batch, normalization never raises: every row is
produced, and a row missing any of `x`/`y`/`end_x`/`end_y` gets an
undefined (`NaN`) distance and angle, and `is_progressive = false` when
`x` or `end_x` is missing. -/
theorem c6_per_event_defaults_amended (events : List RawEvent)
    (hx : hasCol events (fun e => e.x) = true)
    (hy : hasCol events (fun e => e.y) = true)
    (hex : hasCol events (fun e => e.endX) = true)
    (hey : hasCol events (fun e => e.endY) = true) :
    createEventsDataframe events = .ok (events.map mkRow) ∧
    (events.map mkRow).length = events.length ∧
    ∀ e ∈ events,
      ((e.x = none ∨ e.y = none ∨ e.endX = none ∨ e.endY = none) →
        (mkRow e).distanceSq = none ∧ (mkRow e).angleArgs = none) ∧
      ((e.x = none ∨ e.endX = none) → (mkRow e).isProgressive = false) := by
  refine ⟨?_, List.length_map _ _, ?_⟩
  · have hne : events.isEmpty = false := by
      cases events with
      | nil => simp [hasCol] at hx
      | cons a l => rfl
    unfold createEventsDataframe
    simp [hne, hx, hy, hex, hey]
  · intro e _
    obtain ⟨eid, tid, pid, ox, oy, oex, oey, oty, oout, oper, mi, se, qu⟩ := e
    constructor
    · intro hmiss
      cases ox <;> cases oy <;> cases oex <;> cases oey <;>
        simp_all [mkRow]
    · intro hmiss
      cases ox <;> cases oex <;> simp_all [mkRow]

/-- **C6** witness: the amended theorem applied to a batch whose second
record lacks `endX`/`endY` while the columns exist: normalization succeeds
with both rows, and the second row's metrics default. -/
theorem c6_per_event_defaults_amended_witness :
    createEventsDataframe rawPartial = .ok (rawPartial.map mkRow) ∧
    (mkRow rawNoEndEv).distanceSq = none ∧
    (mkRow rawNoEndEv).angleArgs = none ∧
    (mkRow rawNoEndEv).isProgressive = false := by
  have h := c6_per_event_defaults_amended rawPartial rfl rfl rfl rfl
  have h2 := h.2.2 rawNoEndEv (by simp [rawPartial])
  refine ⟨h.1, ?_, ?_, ?_⟩
  · exact (h2.1 (by simp [rawNoEndEv])).1
  · exact (h2.1 (by simp [rawNoEndEv])).2
  · exact h2.2 (by simp [rawNoEndEv])

/-- **C5** (`functional_correctness`, corrected): the counterexample.  The
claim says passes are classified forward/backward by the sign of
`end_x − x` and that both counts are reported; but the source computes
`forward_passes = len(passes[passes['distance'] > 0])` — the Euclidean
pass length, never negative — and its populated branch returns no
`backward_passes` key at all.  A single backward pass of length 10 is
counted as forward, and `backward_passes` is absent. -/
theorem c5_forward_pass_counterexample :
    statLookup (calculatePassingStats tpBackward 1) "forward_passes" =
      some 1 ∧
    specForwardPasses (dfBackward.filter (fun e =>
      e.teamId = 1 ∧ e.typeDisplay = "Pass")) = 0 ∧
    specBackwardPasses (dfBackward.filter (fun e =>
      e.teamId = 1 ∧ e.typeDisplay = "Pass")) = 1 ∧
    statLookup (calculatePassingStats tpBackward 1) "backward_passes" =
      none := by
  have hstats : calculatePassingStats tpBackward 1 =
      [("total_passes", 1), ("completed_passes", 1), ("pass_accuracy", 100),
       ("forward_passes", 1), ("progressive_passes", 0), ("short_passes", 1),
       ("long_passes", 0), ("key_passes", 0), ("assists", 0)] := by
    norm_num [calculatePassingStats, tpBackward, dfBackward, mkEv,
      distancePos, distanceLt, distanceGe]
  refine ⟨?_, ?_, ?_, ?_⟩
  · rw [hstats]
    simp [statLookup]
  · norm_num [specForwardPasses, dfBackward, mkEv]
  · norm_num [specBackwardPasses, dfBackward, mkEv]
  · rw [hstats]
    simp [statLookup]

/-- **C5** (amended).  For a team with a nonempty pass partition,
`forward_passes` counts the passes whose Euclidean start-to-end length
(`distance`) is strictly positive — not the sign of `end_x − x` — and no
`backward_passes` statistic is reported; only the empty-partition branch
reports `backward_passes`, as 0. -/
theorem c5_forward_passes_amended (tp : TeamProcessor) (teamId : ℤ)
    (df : List Event) (hdf : tp.eventsDf = some df)
    (hne : df.isEmpty = false) :
    ((df.filter (fun e =>
        e.teamId = teamId ∧ e.typeDisplay = "Pass")).isEmpty = false →
      statLookup (calculatePassingStats tp teamId) "forward_passes" =
        some (((df.filter (fun e =>
          e.teamId = teamId ∧ e.typeDisplay = "Pass")).filter
            distancePos).length : ℚ) ∧
      statLookup (calculatePassingStats tp teamId) "backward_passes" =
        none) ∧
    ((df.filter (fun e =>
        e.teamId = teamId ∧ e.typeDisplay = "Pass")).isEmpty = true →
      statLookup (calculatePassingStats tp teamId) "backward_passes" =
        some 0) := by
  obtain ⟨ht, aw, odf⟩ := tp
  simp only at hdf
  subst hdf
  constructor
  · intro hpne
    simp only [calculatePassingStats, hne, hpne, Bool.false_eq_true,
      if_false]
    constructor <;> simp [statLookup]
  · intro hpe
    simp only [calculatePassingStats, hne, hpe, Bool.false_eq_true,
      if_false, if_true]
    simp [statLookup]

/-- **C5** witness: the amended theorem applied to the one-backward-pass
table — team 1's `forward_passes` is 1 with no `backward_passes` key, and
team 2 (no passes) gets `backward_passes = 0`. -/
theorem c5_forward_passes_amended_witness :
    statLookup (calculatePassingStats tpBackward 1) "forward_passes" =
      some 1 ∧
    statLookup (calculatePassingStats tpBackward 2) "backward_passes" =
      some 0 := by
  have h1 := (c5_forward_passes_amended tpBackward 1 dfBackward rfl rfl).1
    (by rfl)
  have h2 := (c5_forward_passes_amended tpBackward 2 dfBackward rfl rfl).2
    (by rfl)
  refine ⟨?_, h2⟩
  rw [h1.1]
  norm_num [dfBackward, mkEv, distancePos, List.filter]

/-- **C4** (`functional_correctness`, confirmed against the spec model).
Every cell of the zonal control grid is labelled `Home` exactly when the
home share of its touches exceeds 0.6 (equivalently `5·home > 3·total`),
`Away` exactly when the share is below 0.4 (equivalently
`5·home < 2·total`), and `Contested` otherwise — in particular a cell with
zero touches is `Contested`; the matrix entry at `(r, c)` is that cell's
label. -/
theorem c4_zonal_control_thresholds (df : List Event) (homeId awayId : ℤ)
    (gridCols gridRows r c : ℕ) (hr : r < gridRows) (hc : c < gridCols) :
    ((calculateZonalControl df homeId awayId gridCols gridRows).getD r
        []).getD c .contested =
      zoneLabelAt df homeId awayId gridCols gridRows r c ∧
    (zoneLabelAt df homeId awayId gridCols gridRows r c = .home ↔
      3 * (cellTouches df homeId gridCols gridRows r c +
        cellTouches df awayId gridCols gridRows r c) <
        5 * cellTouches df homeId gridCols gridRows r c) ∧
    (zoneLabelAt df homeId awayId gridCols gridRows r c = .away ↔
      5 * cellTouches df homeId gridCols gridRows r c <
        2 * (cellTouches df homeId gridCols gridRows r c +
          cellTouches df awayId gridCols gridRows r c)) ∧
    (cellTouches df homeId gridCols gridRows r c +
        cellTouches df awayId gridCols gridRows r c = 0 →
      zoneLabelAt df homeId awayId gridCols gridRows r c = .contested) := by
  refine ⟨?_, ?_, ?_, ?_⟩
  · simp [calculateZonalControl, List.getD_eq_getElem?_getD,
      List.getElem?_map, List.getElem?_range hr, List.getElem?_range hc]
  · simp only [zoneLabelAt]
    by_cases h0 : cellTouches df homeId gridCols gridRows r c +
        cellTouches df awayId gridCols gridRows r c = 0
    · rw [if_pos h0]
      constructor
      · intro hcon
        exact absurd hcon (by simp)
      · intro hlt
        omega
    · rw [if_neg h0]
      have hq : (0 : ℚ) < (cellTouches df homeId gridCols gridRows r c : ℚ) +
          (cellTouches df awayId gridCols gridRows r c : ℚ) := by
        have := Nat.pos_of_ne_zero h0
        exact_mod_cast this
      by_cases h6 : ((cellTouches df homeId gridCols gridRows r c : ℚ) /
          ((cellTouches df homeId gridCols gridRows r c : ℚ) +
            (cellTouches df awayId gridCols gridRows r c : ℚ))) > 0.6
      · rw [if_pos h6]
        rw [gt_iff_lt, lt_div_iff₀ hq] at h6
        constructor
        · intro _
          have hlt : (3 : ℚ) *
              ((cellTouches df homeId gridCols gridRows r c : ℚ) +
                (cellTouches df awayId gridCols gridRows r c : ℚ)) <
              5 * (cellTouches df homeId gridCols gridRows r c : ℚ) := by
            nlinarith
          push_cast at hlt
          exact_mod_cast hlt
        · intro _
          rfl
      · rw [if_neg h6]
        have hnot : ¬3 * (cellTouches df homeId gridCols gridRows r c +
            cellTouches df awayId gridCols gridRows r c) <
            5 * cellTouches df homeId gridCols gridRows r c := by
          intro hlt
          apply h6
          rw [gt_iff_lt, lt_div_iff₀ hq]
          have hltq : (3 : ℚ) *
              ((cellTouches df homeId gridCols gridRows r c : ℚ) +
                (cellTouches df awayId gridCols gridRows r c : ℚ)) <
              5 * (cellTouches df homeId gridCols gridRows r c : ℚ) := by
            exact_mod_cast hlt
          nlinarith
        split_ifs with h4
        · simp [hnot]
        · simp [hnot]
  · simp only [zoneLabelAt]
    by_cases h0 : cellTouches df homeId gridCols gridRows r c +
        cellTouches df awayId gridCols gridRows r c = 0
    · rw [if_pos h0]
      constructor
      · intro hcon
        exact absurd hcon (by simp)
      · intro hlt
        omega
    · rw [if_neg h0]
      have hq : (0 : ℚ) < (cellTouches df homeId gridCols gridRows r c : ℚ) +
          (cellTouches df awayId gridCols gridRows r c : ℚ) := by
        have := Nat.pos_of_ne_zero h0
        exact_mod_cast this
      by_cases h6 : ((cellTouches df homeId gridCols gridRows r c : ℚ) /
          ((cellTouches df homeId gridCols gridRows r c : ℚ) +
            (cellTouches df awayId gridCols gridRows r c : ℚ))) > 0.6
      · rw [if_pos h6]
        rw [gt_iff_lt, lt_div_iff₀ hq] at h6
        have hnot : ¬5 * cellTouches df homeId gridCols gridRows r c <
            2 * (cellTouches df homeId gridCols gridRows r c +
              cellTouches df awayId gridCols gridRows r c) := by
          intro hlt
          have hltq : (5 : ℚ) *
              (cellTouches df homeId gridCols gridRows r c : ℚ) <
              2 * ((cellTouches df homeId gridCols gridRows r c : ℚ) +
                (cellTouches df awayId gridCols gridRows r c : ℚ)) := by
            exact_mod_cast hlt
          nlinarith
        simp [hnot]
      · rw [if_neg h6]
        by_cases h4 : ((cellTouches df homeId gridCols gridRows r c : ℚ) /
            ((cellTouches df homeId gridCols gridRows r c : ℚ) +
              (cellTouches df awayId gridCols gridRows r c : ℚ))) < 0.4
        · rw [if_pos h4]
          rw [div_lt_iff₀ hq] at h4
          constructor
          · intro _
            have hlt : (5 : ℚ) *
                (cellTouches df homeId gridCols gridRows r c : ℚ) <
                2 * ((cellTouches df homeId gridCols gridRows r c : ℚ) +
                  (cellTouches df awayId gridCols gridRows r c : ℚ)) := by
              nlinarith
            exact_mod_cast hlt
          · intro _
            rfl
        · rw [if_neg h4]
          have hnot : ¬5 * cellTouches df homeId gridCols gridRows r c <
              2 * (cellTouches df homeId gridCols gridRows r c +
                cellTouches df awayId gridCols gridRows r c) := by
            intro hlt
            apply h4
            rw [div_lt_iff₀ hq]
            have hltq : (5 : ℚ) *
                (cellTouches df homeId gridCols gridRows r c : ℚ) <
                2 * ((cellTouches df homeId gridCols gridRows r c : ℚ) +
                  (cellTouches df awayId gridCols gridRows r c : ℚ)) := by
              exact_mod_cast hlt
            nlinarith
          simp [hnot]
  · intro h0
    simp only [zoneLabelAt]
    rw [if_pos h0]

/-- **C4** witness: the theorem applied on the production 6×4 grid to the
spec's two scenarios — a cell with 7 home / 3 away touches is `Home`, and a
cell with 5 / 5 touches is `Contested`. -/
theorem c4_zonal_control_thresholds_witness :
    ((calculateZonalControl dfZone73 1 2 6 4).getD 0 []).getD 0 .contested =
      .home ∧
    ((calculateZonalControl dfZone55 1 2 6 4).getD 0 []).getD 0 .contested =
      .contested := by
  constructor
  · obtain ⟨hentry, hhome, -, -⟩ :=
      c4_zonal_control_thresholds dfZone73 1 2 6 4 0 0 (by norm_num)
        (by norm_num)
    have h7 : cellTouches dfZone73 1 6 4 0 0 = 7 := by
      norm_num [cellTouches, dfZone73, touchEv, List.replicate, List.filter]
    have h3 : cellTouches dfZone73 2 6 4 0 0 = 3 := by
      norm_num [cellTouches, dfZone73, touchEv, List.replicate, List.filter]
    rw [hentry]
    apply hhome.mpr
    rw [h7, h3]
    norm_num
  · obtain ⟨hentry, hhome, haway, -⟩ :=
      c4_zonal_control_thresholds dfZone55 1 2 6 4 0 0 (by norm_num)
        (by norm_num)
    have h5 : cellTouches dfZone55 1 6 4 0 0 = 5 := by
      norm_num [cellTouches, dfZone55, touchEv, List.replicate, List.filter]
    have h5' : cellTouches dfZone55 2 6 4 0 0 = 5 := by
      norm_num [cellTouches, dfZone55, touchEv, List.replicate, List.filter]
    rw [hentry]
    cases hl : zoneLabelAt dfZone55 1 2 6 4 0 0 with
    | home =>
      have := hhome.mp hl
      rw [h5, h5'] at this
      norm_num at this
    | away =>
      have := haway.mp hl
      rw [h5, h5'] at this
      norm_num at this
    | contested => rfl

end PostMatch
